import Mathlib

/-!
Verification development for the design-request-plugin repository.

The repository's "suggestion normalization pipeline" lives in three files:
`src/server.js` (Express endpoint `/api/analyze`), `src/api/server-utils.js`
(shared helpers: mock generator, `parseColorValueForFigma`,
`parseNumericValueFromAI`) and `src/api/analyze-foundry/index.js` (the Azure
Functions handler plus the natural-language parser
`parseFoundryAgentResponse`).

This file is a shallow embedding of that pipeline:
* JS strings are Lean `String`s and are manipulated through their `List Char`
  data; the JS regexes used by the code are replaced by equivalent explicit
  character-level scanners.
* JS numbers are modelled as `ℚ` (exact rationals).  `NaN` — which the code
  can produce via `parseInt` on non-numeric text — is modelled as `none` in
  `Option ℚ`; arithmetic and comparisons on such values propagate `none`
  the way JS propagates `NaN` (any `<` comparison with `NaN` is `false`).
* JS exceptions (the pipeline can throw a `TypeError` when a non-string
  reaches `parseColorValueForFigma`, or when `suggestion.elementId` is
  `undefined` in server.js strategy 2) are modelled with `Except Unit`.
* Network calls to the AI providers are opaque; the handlers are therefore
  parameterised by the provider outcome (structured payload, free text,
  missing configuration, failure), exactly the distinctions the control
  flow of the code makes.
-/

/- The arithmetic of `ℚ` is used to evaluate the embedded code on concrete
inputs inside `decide`; the Batteries definitions of the field operations
are irreducible by default, which only hides them from unfolding — this
resets their reducibility for this file so that concrete runs reduce. -/
attribute [local semireducible] Rat.mul Rat.add Rat.sub Rat.inv Rat.ofScientific

namespace DRP

/-! ## Characters and JS string primitives -/

/-- Decimal digit test, `\d` of the JS regexes (code points 48–57). -/
def isDigitChar (c : Char) : Bool :=
  48 ≤ c.toNat && c.toNat ≤ 57

/-- Hex digit test (`[0-9a-fA-F]`), used by `parseInt(·, 16)` and by the
case-insensitive hex-color regex `/#([0-9a-f]{6})/i`. -/
def isHexDigit (c : Char) : Bool :=
  (48 ≤ c.toNat && c.toNat ≤ 57) ||
  (97 ≤ c.toNat && c.toNat ≤ 102) ||
  (65 ≤ c.toNat && c.toNat ≤ 70)

/-- Whitespace class `\s` of JS regexes / leading-whitespace skip of
`parseInt` (space, tab, LF, VT, FF, CR). -/
def isJsWhitespace (c : Char) : Bool :=
  c == ' ' || c == '\t' || c == '\n' || c == '\x0b' || c == '\x0c' || c == '\r'

/-- Value of a decimal digit character. -/
def digitVal (c : Char) : Nat := c.toNat - 48

/-- Value of a hex digit character (0 on non-hex input). -/
def hexDigitVal (c : Char) : Nat :=
  if 48 ≤ c.toNat ∧ c.toNat ≤ 57 then c.toNat - 48
  else if 97 ≤ c.toNat ∧ c.toNat ≤ 102 then c.toNat - 87
  else if 65 ≤ c.toNat ∧ c.toNat ≤ 70 then c.toNat - 55
  else 0

/-- Numeric value of a decimal digit string. -/
def decValNat (cs : List Char) : Nat :=
  cs.foldl (fun a c => 10 * a + digitVal c) 0

/-- Numeric value of a hex digit string. -/
def hexValNat (cs : List Char) : Nat :=
  cs.foldl (fun a c => 16 * a + hexDigitVal c) 0

/-- `hay.includes(pat)` of JS: substring containment. -/
def strContainsAux (pat : List Char) : List Char → Bool
  | [] => pat.isPrefixOf ([] : List Char)
  | c :: t => pat.isPrefixOf (c :: t) || strContainsAux pat t

/-- `hay.includes(pat)` on strings. -/
def strContains (hay pat : String) : Bool :=
  strContainsAux pat.data hay.data

/-- `s.toLowerCase()` (ASCII case mapping, which is all the code relies on). -/
def strToLower (s : String) : String :=
  String.mk (s.data.map Char.toLower)

/-- `s.slice(a, b)` / `s.substring(a, b)` for `a ≤ b` (clamping at the end). -/
def strSlice (s : String) (a b : Nat) : List Char :=
  (s.data.drop a).take (b - a)

/-- `s.trim()` of JS. -/
def jsTrim (s : String) : String :=
  String.mk (((s.data.dropWhile isJsWhitespace).reverse.dropWhile isJsWhitespace).reverse)

/-- `s.substring(0, n)` as a string. -/
def strTake (s : String) (n : Nat) : String :=
  String.mk (s.data.take n)

/-- Helper for `splitChar`: accumulate the current segment (reversed). -/
def splitCharAux (sep : Char) : List Char → List Char → List String
  | [], acc => [String.mk acc.reverse]
  | c :: t, acc =>
    if c = sep then String.mk acc.reverse :: splitCharAux sep t []
    else splitCharAux sep t (c :: acc)

/-- `s.split(sep)` of JS for a one-character separator (the code only splits
on `'\n'`). -/
def splitChar (s : String) (sep : Char) : List String :=
  splitCharAux sep s.data []

/-! ## JS number parsing

`parseInt(s, 16)` / `parseInt(s)` skip leading whitespace, accept an optional
sign (and, in radix 16, an optional `0x`/`0X` prefix), then read the longest
prefix of digits of the radix; no digits means `NaN`, modelled as `none`. -/

/-- `parseInt(s, 16)`. -/
def jsParseIntHex (cs : List Char) : Option Int :=
  let cs1 := cs.dropWhile isJsWhitespace
  let sign : Int := if cs1.head? = some '-' then -1 else 1
  let cs2 := if cs1.head? = some '-' ∨ cs1.head? = some '+' then cs1.tail else cs1
  let cs3 := if cs2.take 2 = ['0', 'x'] ∨ cs2.take 2 = ['0', 'X'] then cs2.drop 2 else cs2
  let digits := cs3.takeWhile isHexDigit
  if digits.isEmpty then none else some (sign * (hexValNat digits : Int))

/-- `parseInt(s)` with the default radix 10 (the code only ever applies it to
strings captured by `\d+`, but the general form is modelled). -/
def jsParseIntDec (cs : List Char) : Option Int :=
  let cs1 := cs.dropWhile isJsWhitespace
  let sign : Int := if cs1.head? = some '-' then -1 else 1
  let cs2 := if cs1.head? = some '-' ∨ cs1.head? = some '+' then cs1.tail else cs1
  let digits := cs2.takeWhile isDigitChar
  if digits.isEmpty then none else some (sign * (decValNat digits : Int))

/-! ## Data model -/

/-- A color triple as built by the code: `{ r, g, b }`.  Components are JS
numbers, so each may be `NaN` (`none`) when `parseInt` failed on a slice. -/
structure Color where
  r : Option ℚ
  g : Option ℚ
  b : Option ℚ
deriving DecidableEq, Repr

/-- A loosely typed JS value as it appears in suggestion fields:
a string, a number, a `{r,g,b}` color object, `null`, or `undefined`. -/
inductive SVal where
  | s (str : String)
  | n (q : ℚ)
  | col (c : Color)
  | nullv
  | undef
deriving DecidableEq, Repr

/-- A caller-supplied design element snapshot (the request's `elements`
entries).  `fill` and `characters` may be absent (`undefined`). -/
structure Element where
  id : String
  type : String
  name : String
  width : ℚ
  height : ℚ
  fill : Option String
  characters : Option String
deriving DecidableEq, Repr

/-- A suggestion record as produced upstream and normalized by the pipeline.
`elementId` is `none` when the field is `undefined`. -/
structure Suggestion where
  type : String
  elementId : Option String
  property : String
  currentValue : SVal
  suggestedValue : SVal
  confidence : ℚ
  reasoning : String
deriving DecidableEq, Repr

/-- JS truthiness of an `SVal` (`""`, `0`, `null` and `undefined` are falsy). -/
def jsTruthySVal : SVal → Bool
  | .s str => str ≠ ""
  | .n q => q ≠ 0
  | .col _ => true
  | .nullv => false
  | .undef => false

/-! ## NaN-propagating arithmetic on `Option ℚ` -/

/-- Subtraction propagating NaN. -/
def jsSub : Option ℚ → Option ℚ → Option ℚ
  | some a, some b => some (a - b)
  | _, _ => none

/-- Absolute value propagating NaN. -/
def jsAbs : Option ℚ → Option ℚ
  | some a => some |a|
  | none => none

/-- Addition propagating NaN. -/
def jsAdd : Option ℚ → Option ℚ → Option ℚ
  | some a, some b => some (a + b)
  | _, _ => none

/-- `x < c` where `x` may be NaN: any comparison with NaN is `false`. -/
def jsLt (x : Option ℚ) (c : ℚ) : Bool :=
  match x with
  | some q => q < c
  | none => false

/-- Summed per-channel absolute difference of two colors, as computed by the
server.js color filter. -/
def colorDiffSum (a b : Color) : Option ℚ :=
  jsAdd (jsAdd (jsAbs (jsSub a.r b.r)) (jsAbs (jsSub a.g b.g))) (jsAbs (jsSub a.b b.b))

/-! ## `parseColorValueForFigma` (the `coerceColor` of the spec)

Source: `src/api/server-utils.js` lines 172–197 and the identical copy in
`src/server.js` lines 67–92. -/

/-- `o / 255` where `o` may be NaN. -/
def divNaN (o : Option Int) (d : Nat) : Option ℚ :=
  o.map (fun n => (n : ℚ) / (d : ℚ))

/-- The hex branch body: `parseInt(hex.slice(0,2),16)/255` etc. on the six
characters after `#`. -/
def hexColorOf (hex : List Char) : Color :=
  { r := divNaN (jsParseIntHex (hex.take 2)) 255
    g := divNaN (jsParseIntHex ((hex.drop 2).take 2)) 255
    b := divNaN (jsParseIntHex ((hex.drop 4).take 2)) 255 }

/-- Attempt to match the regex `rgb\((\d+),\s*(\d+),\s*(\d+)\)` anchored at
the start of `cs`; on success returns the three captured numbers (the code
applies `parseInt` to the captured digit strings, whose value is their
decimal reading) and the remaining characters. -/
def rgbParseAt (cs : List Char) : Option (Nat × Nat × Nat × List Char) :=
  match cs with
  | 'r' :: 'g' :: 'b' :: '(' :: rest =>
    let d1 := rest.takeWhile isDigitChar
    let r1 := rest.dropWhile isDigitChar
    if d1 = [] then none else
    match r1 with
    | ',' :: r2 =>
      let r2w := r2.dropWhile isJsWhitespace
      let d2 := r2w.takeWhile isDigitChar
      let r3 := r2w.dropWhile isDigitChar
      if d2 = [] then none else
      match r3 with
      | ',' :: r4 =>
        let r4w := r4.dropWhile isJsWhitespace
        let d3 := r4w.takeWhile isDigitChar
        let r5 := r4w.dropWhile isDigitChar
        if d3 = [] then none else
        match r5 with
        | ')' :: r6 => some (decValNat d1, decValNat d2, decValNat d3, r6)
        | _ => none
      | _ => none
    | _ => none
  | _ => none

/-- `colorStr.match(/rgb\((\d+),\s*(\d+),\s*(\d+)\)/)`: first (leftmost)
match anywhere in the string. -/
def rgbFind : List Char → Option (Nat × Nat × Nat)
  | [] => none
  | c :: t =>
    match rgbParseAt (c :: t) with
    | some (r, g, b, _) => some (r, g, b)
    | none => rgbFind t

/-- Core of `parseColorValueForFigma` on the character list of the input.
Mirrors the JS control flow: a falsy (empty) string returns `null`; a string
starting with `#` whose remainder has length 6 returns the hex triple
unconditionally (components may be NaN); otherwise the `rgb(...)` regex is
tried on the whole string. -/
def parseColorCore (cs : List Char) : Option Color :=
  if cs = [] then none
  else if cs.head? = some '#' ∧ (cs.drop 1).length = 6 then
    some (hexColorOf (cs.drop 1))
  else
    match rgbFind cs with
    | some (r, g, b) => some { r := some ((r : ℚ) / 255), g := some ((g : ℚ) / 255), b := some ((b : ℚ) / 255) }
    | none => none

/-- `parseColorValueForFigma` on a string input. -/
def parseColorValueForFigma (colorStr : String) : Option Color :=
  parseColorCore colorStr.data

/-- `parseColorValueForFigma(value)` for an arbitrary suggestion value, as the
pipelines call it.  A falsy value (`null`, `undefined`, `""`, `0`) returns
`null` through the `!colorStr` guard; a truthy non-string (a number or the
`{r,g,b}` object emitted by the foundry natural-language parser) reaches
`colorStr.startsWith` and raises a `TypeError`, modelled as `.error ()`. -/
def parseColorSVal : SVal → Except Unit (Option Color)
  | .s str => .ok (parseColorValueForFigma str)
  | .n q => if q = 0 then .ok none else .error ()
  | .col _ => .error ()
  | .nullv => .ok none
  | .undef => .ok none

/-! ## `parseNumericValueFromAI` (the `coerceNumber` of the spec)

Source: `src/api/server-utils.js` lines 199–204 / `src/server.js` 94–99. -/

/-- First match of `(\d+(?:\.\d+)?)` in a character list, returned as its
exact decimal value (the code's `parseFloat` of the captured numeral). -/
def firstNumeral : List Char → Option ℚ
  | [] => none
  | c :: t =>
    if isDigitChar c then
      let intPart := (c :: t).takeWhile isDigitChar
      let rest := (c :: t).dropWhile isDigitChar
      let fracPart :=
        match rest with
        | '.' :: r2 =>
          let fd := r2.takeWhile isDigitChar
          fd
        | _ => []
      some ((decValNat intPart : ℚ) + (decValNat fracPart : ℚ) / (10 : ℚ) ^ fracPart.length)
    else firstNumeral t

/-- `String(value)` for the non-string values the model distinguishes. -/
def jsToDisplayString : SVal → String
  | .s str => str
  | .n _ => ""
  | .col _ => "[object Object]"
  | .nullv => "null"
  | .undef => "undefined"

/-- `parseNumericValueFromAI`: numbers pass through; any other value is
stringified and scanned for the first unsigned decimal numeral. -/
def parseNumericValueFromAI (value : SVal) : Option ℚ :=
  match value with
  | .n q => some q
  | v => firstNumeral (jsToDisplayString v).data

/-! ## Spec-side color grammar

Modelled from the spec: "`coerceColor` accepts two input grammars: (a) hex
triplet `#RRGGBB` (exactly 6 hex digits after `#`); (b) `rgb(R,G,B)` with
integer components 0–255.  Output components are the integer channel value
divided by 255."  These definitions follow the spec's words (whole-string
grammars with validated digits and bounded components) and are compared with
the implementation above. -/

/-- Grammar (a) of the spec: `#` followed by exactly six hex digits, returning
the three channel values. -/
def specHexTriplet (s : String) : Option (Nat × Nat × Nat) :=
  match s.data with
  | '#' :: rest =>
    if rest.length = 6 ∧ rest.all isHexDigit then
      some (hexValNat (rest.take 2), hexValNat ((rest.drop 2).take 2), hexValNat ((rest.drop 4).take 2))
    else none
  | _ => none

/-- Grammar (b) of the spec: the entire string is `rgb(R,G,B)` (with optional
whitespace after the commas) and each integer component is at most 255. -/
def specRgbForm (s : String) : Option (Nat × Nat × Nat) :=
  match rgbParseAt s.data with
  | some (r, g, b, rest) =>
    if rest = [] ∧ r ≤ 255 ∧ g ≤ 255 ∧ b ≤ 255 then some (r, g, b) else none
  | none => none

/-- The spec's color grammar: one of the two accepted forms, with its channel
values. -/
def specParseColor (s : String) : Option (Nat × Nat × Nat) :=
  match specHexTriplet s with
  | some t => some t
  | none => specRgbForm s

/-! ## The mock generator

Source: `generateMockAIResponse` in `src/api/server-utils.js` lines 80–169
(identical copy in `src/server.js` lines 176–265).  The `try` around the body
cannot throw in practice (every property access is defaulted), so the
error-fallback suggestion of its `catch` is unreachable and not modelled. -/

/-- `toString` of a JS number for the mock's `elementWidth.toString()`.
The model renders integral rationals exactly as JS renders integers; the
non-integral rendering (JS prints a decimal expansion) is approximated by a
fraction, which no claim inspects. -/
def jsNumToString (q : ℚ) : String :=
  if q.den = 1 then toString q.num else toString q.num ++ "/" ++ toString q.den

/-- `Math.round` (half-up towards +infinity). -/
def jsRound (q : ℚ) : ℚ := ((q + 1 / 2).floor : ℤ)

/-- The defaulted element name `element?.name || 'Element ${index+1}'`. -/
def mockElementName (el : Element) (index : Nat) : String :=
  if el.name = "" then "Element " ++ toString (index + 1) else el.name

/-- The defaulted element id `element?.id || 'mock-${index}'`. -/
def mockElementId (el : Element) (index : Nat) : String :=
  if el.id = "" then "mock-" ++ toString index else el.id

/-- The defaulted element type `element?.type || 'UNKNOWN'`. -/
def mockElementType (el : Element) : String :=
  if el.type = "" then "UNKNOWN" else el.type

/-- The mock color palette. -/
def mockColors : List String :=
  ["#4A90E2", "#50E3C2", "#F5A623", "#D0021B", "#7ED321"]

/-- `element.fill && element.fill !== 'none' ? element.fill : 'no color'`. -/
def mockCurrentFill (el : Element) : String :=
  match el.fill with
  | some f => if f ≠ "" ∧ f ≠ "none" then f else "no color"
  | none => "no color"

/-- The suggestions the mock generator pushes for one element. -/
def mockSuggestionsFor (el : Element) (index : Nat) : List Suggestion :=
  let elementType := mockElementType el
  let elementName := mockElementName el index
  let elementId := mockElementId el index
  (if elementType = "RECTANGLE" ∨ elementType = "ELLIPSE" ∨ elementType = "POLYGON" ∨
      elementType = "SHAPE_WITH_TEXT" ∨ elementType = "FRAME" ∨ elementType = "COMPONENT" then
    let currentFill := mockCurrentFill el
    [{ type := "color"
       elementId := some elementId
       property := "fill"
       currentValue := .s currentFill
       suggestedValue := .s (mockColors.getD (index % mockColors.length) "")
       confidence := 0.8
       reasoning := (if currentFill = "no color" then "Adding" else "Updating") ++
         " color for \"" ++ elementName ++ "\" to improve visual hierarchy and design cohesion." }]
  else []) ++
  (if el.width ≠ 0 ∧ el.height ≠ 0 then
    [{ type := "size"
       elementId := some elementId
       property := "width"
       currentValue := .s (jsNumToString el.width)
       suggestedValue := .n (jsRound (el.width * 1.2))
       confidence := 0.9
       reasoning := "Increased width for \"" ++ elementName ++
         "\" for better visual balance and improved readability." }]
  else []) ++
  (if elementType = "TEXT" ∧ elementName ≠ "" then
    [{ type := "text"
       elementId := some elementId
       property := "content"
       currentValue := .s elementName
       suggestedValue := .s (String.mk (match elementName.data with
         | [] => []
         | c :: rest => Char.toUpper c :: rest.map Char.toLower))
       confidence := 0.85
       reasoning := "Improved capitalization for \"" ++ elementName ++
         "\" for better readability and modern typography standards." }]
  else [])

/-- The single informational suggestion for an empty selection. -/
def mockNoSelection : Suggestion :=
  { type := "general"
    elementId := some "no-selection"
    property := "selection"
    currentValue := .s "No elements selected"
    suggestedValue := .s "Select elements to get AI suggestions"
    confidence := 1
    reasoning := "Please select design elements in Figma to receive AI-powered suggestions." }

/-- The `elements.forEach` accumulation of the mock generator. -/
def mockLoop : List Element → Nat → List Suggestion
  | [], _ => []
  | el :: rest, index => mockSuggestionsFor el index ++ mockLoop rest (index + 1)

/-- `generateMockAIResponse(elements).suggestions`. -/
def generateMockAIResponse (elements : List Element) : List Suggestion :=
  if elements = [] then [mockNoSelection] else mockLoop elements 0

/-! ## Element resolution

Source: the mapping over `aiResponse.suggestions` in `src/server.js`
lines 353–394 (strategies 1–4) and `src/api/analyze-foundry/index.js`
lines 126–143 (strategies 1, 2 and round-robin; no partial match). -/

/-- Strategy 1: `suggestion.elementId && suggestion.elementId.includes(':')`
then exact id lookup. -/
def strategy1 (sugg : Suggestion) (elements : List Element) : Option Element :=
  match sugg.elementId with
  | some eid => if strContains eid ":" then elements.find? (fun el => el.id == eid) else none
  | none => none

/-- The first match of `/"([^"]+)"/`: a non-empty run of non-quote characters
between two double quotes. -/
def extractQuotedAux : List Char → Option String
  | [] => none
  | c :: t =>
    if c = '"' then
      let content := t.takeWhile (fun d => d ≠ '"')
      let rest := t.dropWhile (fun d => d ≠ '"')
      if content ≠ [] ∧ rest ≠ [] then some (String.mk content)
      else extractQuotedAux t
    else extractQuotedAux t

/-- `s.match(/"([^"]+)"/)`, returning the captured group. -/
def extractQuoted (s : String) : Option String :=
  extractQuotedAux s.data

/-- Strategy 2: quoted-name extraction and exact name lookup. -/
def strategy2 (eid : String) (elements : List Element) : Option Element :=
  (extractQuoted eid).bind (fun nm => elements.find? (fun el => el.name == nm))

/-- Strategy 3 (server.js only): partial match — the raw target contains an
element's name or type as a substring. -/
def strategy3 (eid : String) (elements : List Element) : Option Element :=
  elements.find? (fun el => strContains eid el.name || strContains eid el.type)

/-- Strategy 4: deterministic round-robin on the suggestion's index in the
upstream suggestion array, skipped when the element list is empty.
`elements[idx % len]` is in bounds for a non-empty list, so indexing with
`getElem?` is exact. -/
def roundRobin (idx : Nat) (elements : List Element) : Option Element :=
  if 0 < elements.length then elements[idx % elements.length]? else none

/-- server.js resolution.  Strategy 2 dereferences `suggestion.elementId`
without a guard, so an `undefined` elementId raises a `TypeError` there. -/
def resolveElementServer (sugg : Suggestion) (idx : Nat) (elements : List Element) :
    Except Unit (Option Element) :=
  match strategy1 sugg elements with
  | some el => .ok (some el)
  | none =>
    match sugg.elementId with
    | none => .error ()
    | some eid =>
      match strategy2 eid elements with
      | some el => .ok (some el)
      | none =>
        match strategy3 eid elements with
        | some el => .ok (some el)
        | none => .ok (roundRobin idx elements)

/-- analyze-foundry resolution.  Strategy 2 uses the optional-chaining guard
`suggestion.elementId?.match(...)` and there is no partial-match strategy. -/
def resolveElementFoundry (sugg : Suggestion) (idx : Nat) (elements : List Element) :
    Option Element :=
  match strategy1 sugg elements with
  | some el => some el
  | none =>
    match (match sugg.elementId with
           | some eid => strategy2 eid elements
           | none => none) with
    | some el => some el
    | none => roundRobin idx elements

/-! ## Per-suggestion enhancement -/

/-- One step of the server.js `enhancedSuggestions` map: resolve the target,
then process color values (with the near-identical-color drop, returning
`none` for a dropped suggestion) and size values. -/
def enhanceSuggestionServer (elements : List Element) (idx : Nat) (sugg : Suggestion) :
    Except Unit (Option Suggestion) := do
  let matching ← resolveElementServer sugg idx elements
  if sugg.type = "color" then
    let colorValue ← parseColorSVal sugg.suggestedValue
    match colorValue with
    | some cv =>
      if jsTruthySVal sugg.currentValue then
        let currentColor ← parseColorSVal sugg.currentValue
        match currentColor with
        | some cc =>
          if jsLt (colorDiffSum cc cv) (1 / 100) then
            pure none
          else
            pure (some { sugg with elementId := matching.map (fun el => el.id),
                                   suggestedValue := .col cv })
        | none =>
          pure (some { sugg with elementId := matching.map (fun el => el.id),
                                 suggestedValue := .col cv })
      else
        pure (some { sugg with elementId := matching.map (fun el => el.id),
                               suggestedValue := .col cv })
    | none =>
      pure (some { sugg with elementId := matching.map (fun el => el.id),
                             suggestedValue := .nullv })
  else if sugg.type = "size" then
    let sizeValue := parseNumericValueFromAI sugg.suggestedValue
    pure (some { sugg with elementId := matching.map (fun el => el.id),
                           suggestedValue := match sizeValue with
                             | some q => .n q
                             | none => .nullv })
  else
    pure (some { sugg with elementId := matching.map (fun el => el.id) })

/-- One step of the analyze-foundry map: same resolution (minus strategy 3),
but `suggestedValue: colorValue || suggestion.suggestedValue` (no drop) and
`sizeValue || suggestion.suggestedValue` (`0` is falsy). -/
def enhanceSuggestionFoundry (elements : List Element) (idx : Nat) (sugg : Suggestion) :
    Except Unit (Option Suggestion) := do
  let matching := resolveElementFoundry sugg idx elements
  if sugg.type = "color" then
    let colorValue ← parseColorSVal sugg.suggestedValue
    pure (some { sugg with elementId := matching.map (fun el => el.id),
                           suggestedValue := match colorValue with
                             | some cv => .col cv
                             | none => sugg.suggestedValue })
  else if sugg.type = "size" then
    let sizeValue := parseNumericValueFromAI sugg.suggestedValue
    pure (some { sugg with elementId := matching.map (fun el => el.id),
                           suggestedValue := match sizeValue with
                             | some q => if q = 0 then sugg.suggestedValue else .n q
                             | none => sugg.suggestedValue })
  else
    pure (some { sugg with elementId := matching.map (fun el => el.id) })

/-- The indexed map of server.js (index 0 upward over the upstream array). -/
def enhanceAllServer (elements : List Element) : List Suggestion → Nat →
    Except Unit (List (Option Suggestion))
  | [], _ => .ok []
  | s :: rest, idx => do
    let r ← enhanceSuggestionServer elements idx s
    let rs ← enhanceAllServer elements rest (idx + 1)
    pure (r :: rs)

/-- `enhancedSuggestions` of server.js: map then `.filter(s => s !== null)`. -/
def enhancedSuggestionsServer (elements : List Element) (suggs : List Suggestion) :
    Except Unit (List Suggestion) :=
  (enhanceAllServer elements suggs 0).map (fun l => l.filterMap id)

/-- The indexed map of analyze-foundry. -/
def enhanceAllFoundry (elements : List Element) : List Suggestion → Nat →
    Except Unit (List (Option Suggestion))
  | [], _ => .ok []
  | s :: rest, idx => do
    let r ← enhanceSuggestionFoundry elements idx s
    let rs ← enhanceAllFoundry elements rest (idx + 1)
    pure (r :: rs)

/-- `enhancedSuggestions` of analyze-foundry (its null filter is vacuous but
kept). -/
def enhancedSuggestionsFoundry (elements : List Element) (suggs : List Suggestion) :
    Except Unit (List Suggestion) :=
  (enhanceAllFoundry elements suggs 0).map (fun l => l.filterMap id)

/-! ## `parseFoundryAgentResponse`: the natural-language parser

Source: `src/api/analyze-foundry/index.js` lines 194–352.  Input is the
assistant's message text plus the request's element list. -/

/-- `Map.set` semantics on an insertion-ordered association list: replace the
value at an existing key in place, else append. -/
def jsMapSet (m : List (String × Element)) (k : String) (v : Element) :
    List (String × Element) :=
  if m.any (fun kv => kv.1 == k) then
    m.map (fun kv => if kv.1 == k then (k, v) else kv)
  else m ++ [(k, v)]

/-- The element lookup map: for each element (in order), its lowercased name
and its id are both keys. -/
def buildElementMap (elements : List Element) : List (String × Element) :=
  elements.foldl (fun m el => jsMapSet (jsMapSet m (strToLower el.name) el) el.id el) []

/-- Result of `line.match(/#([0-9a-f]{6})/i) || line.match(/rgb\(...\)/i)`:
either a hex match (the six captured hex characters) or a case-insensitive
rgb match.  For the rgb form the three leading letters of the full match are
kept because the code later tests `colorMatch[0].startsWith('rgb')`
case-sensitively, and the captured digit strings are kept because on an
uppercase `RGB(` match the code misreads capture 1 as hex digits. -/
inductive ColorMatch where
  | hex (digits : List Char)
  | rgb (pre : List Char) (d1 d2 d3 : List Char)
deriving DecidableEq, Repr

/-- Try `#([0-9a-f]{6})` (case-insensitive) anchored at the head. -/
def hexSearchAt (cs : List Char) : Option (List Char) :=
  match cs with
  | '#' :: rest =>
    let six := rest.take 6
    if six.length = 6 ∧ six.all isHexDigit then some six else none
  | _ => none

/-- Leftmost match of `#([0-9a-f]{6})` in a line. -/
def hexSearchFirst : List Char → Option (List Char)
  | [] => none
  | c :: t =>
    match hexSearchAt (c :: t) with
    | some h => some h
    | none => hexSearchFirst t

/-- Case-insensitive letter equality for the `rgb` of `/rgb\(...\)/i`. -/
def charCI (c target : Char) : Bool :=
  c.toLower == target

/-- Try `rgb\((\d+),\s*(\d+),\s*(\d+)\)` case-insensitively, anchored at the
head; returns the three matched letters and the captured digit strings. -/
def rgbCIParseAt (cs : List Char) : Option (List Char × List Char × List Char × List Char) :=
  match cs with
  | c1 :: c2 :: c3 :: '(' :: rest =>
    if charCI c1 'r' && charCI c2 'g' && charCI c3 'b' then
      let d1 := rest.takeWhile isDigitChar
      let r1 := rest.dropWhile isDigitChar
      if d1 = [] then none else
      match r1 with
      | ',' :: r2 =>
        let r2w := r2.dropWhile isJsWhitespace
        let d2 := r2w.takeWhile isDigitChar
        let r3 := r2w.dropWhile isDigitChar
        if d2 = [] then none else
        match r3 with
        | ',' :: r4 =>
          let r4w := r4.dropWhile isJsWhitespace
          let d3 := r4w.takeWhile isDigitChar
          let r5 := r4w.dropWhile isDigitChar
          if d3 = [] then none else
          match r5 with
          | ')' :: _ => some ([c1, c2, c3], d1, d2, d3)
          | _ => none
        | _ => none
      | _ => none
    else none
  | _ => none

/-- Leftmost case-insensitive rgb match in a line. -/
def rgbCIFind : List Char → Option (List Char × List Char × List Char × List Char)
  | [] => none
  | c :: t =>
    match rgbCIParseAt (c :: t) with
    | some m => some m
    | none => rgbCIFind t

/-- The combined color match of the color detector. -/
def colorMatchOf (line : String) : Option ColorMatch :=
  match hexSearchFirst line.data with
  | some h => some (.hex h)
  | none =>
    match rgbCIFind line.data with
    | some (pre, d1, d2, d3) => some (.rgb pre d1 d2 d3)
    | none => none

/-- The suggested color value built by the color detector.  The
`colorMatch[0].startsWith('rgb')` test is case-sensitive: an uppercase
`RGB(...)` match falls into the hex branch, which then reads the first digit
capture as hex. -/
def colorMatchValue : ColorMatch → Color
  | .hex h => hexColorOf h
  | .rgb pre d1 d2 d3 =>
    if pre = ['r', 'g', 'b'] then
      { r := some ((decValNat d1 : ℚ) / 255)
        g := some ((decValNat d2 : ℚ) / 255)
        b := some ((decValNat d3 : ℚ) / 255) }
    else hexColorOf d1

/-- First match value of `/(\d+)px/g` in a line: `parseInt` of the full match
`"123px"` is the decimal value of its digits. -/
def sizeFirst : List Char → Option Nat
  | [] => none
  | c :: t =>
    if isDigitChar c then
      let digits := (c :: t).takeWhile isDigitChar
      let rest := (c :: t).dropWhile isDigitChar
      match rest with
      | 'p' :: 'x' :: _ => some (decValNat digits)
      | _ => sizeFirst t
    else sizeFirst t

/-- The color detector of one line. -/
def lineColorSuggestion (line : String) (lowerLine : String)
    (elementMap : List (String × Element)) (elements : List Element) : List Suggestion :=
  match colorMatchOf line with
  | none => []
  | some cm =>
    if strContains lowerLine "color" || strContains lowerLine "fill" ||
       strContains lowerLine "background" then
      let fromMap := (elementMap.find? (fun kv =>
        strContains lowerLine kv.1 || strContains lowerLine (strToLower kv.2.type))).map
        (fun kv => kv.2)
      let target :=
        match fromMap with
        | some el => some el
        | none =>
          match elements with
          | [] => none
          | e0 :: _ => some ((elements.find? (fun (el : Element) => el.type != "TEXT")).getD e0)
      match target with
      | none => []
      | some el =>
        [{ type := "color"
           elementId := some el.id
           property := "fill"
           currentValue := .s (match el.fill with
             | some f => if f ≠ "" then f else "#FFFFFF"
             | none => "#FFFFFF")
           suggestedValue := .col (colorMatchValue cm)
           confidence := 0.9
           reasoning := jsTrim line }]
    else []

/-- The size detector of one line. -/
def lineSizeSuggestion (line : String) (lowerLine : String)
    (elementMap : List (String × Element)) : List Suggestion :=
  match sizeFirst line.data with
  | none => []
  | some newSize =>
    if strContains lowerLine "width" || strContains lowerLine "height" ||
       strContains lowerLine "size" then
      match (elementMap.find? (fun kv => strContains lowerLine kv.1)).map (fun kv => kv.2) with
      | none => []
      | some el =>
        let property := if strContains lowerLine "width" then "width" else "height"
        [{ type := "size"
           elementId := some el.id
           property := property
           currentValue := .n (if property = "width" then el.width else el.height)
           suggestedValue := .n (newSize : ℚ)
           confidence := 0.85
           reasoning := jsTrim line }]
    else []

/-- The text detector of one line. -/
def lineTextSuggestion (line : String) (lowerLine : String)
    (elements : List Element) : List Suggestion :=
  match extractQuoted line with
  | none => []
  | some quoted =>
    if strContains lowerLine "text" || strContains lowerLine "title" ||
       strContains lowerLine "content" then
      let textElements := elements.filter (fun el => el.type == "TEXT")
      let target :=
        match textElements.find? (fun el => strContains lowerLine (strToLower el.name)) with
        | some el => some el
        | none => textElements.head?
      match target with
      | none => []
      | some el =>
        [{ type := "text"
           elementId := some el.id
           property := "content"
           currentValue := .s (match el.characters with
             | some c => if c ≠ "" then c else el.name
             | none => el.name)
           suggestedValue := .s quoted
           confidence := 0.8
           reasoning := jsTrim line }]
    else []

/-- All suggestions the per-line detectors push for one line (color, then
size, then text, matching the push order of the loop body). -/
def processLine (elementMap : List (String × Element)) (elements : List Element)
    (line : String) : List Suggestion :=
  let lowerLine := jsTrim (strToLower line)
  lineColorSuggestion line lowerLine elementMap elements ++
  lineSizeSuggestion line lowerLine elementMap ++
  lineTextSuggestion line lowerLine elements

/-- The full line loop of the parser. -/
def detectorSuggestions (msg : String) (elements : List Element) : List Suggestion :=
  let elementMap := buildElementMap elements
  (splitChar msg '\n').flatMap (processLine elementMap elements)

/-- The bullet/numbered-line extraction feeding the general fallback's
reasoning. -/
def keyRecommendations (msg : String) : String :=
  String.intercalate " " (((splitChar msg '\n').filter (fun line =>
    strContains line "•" || strContains line "-" ||
    strContains line "1." || strContains line "2.")).take 3)

/-- The summary suggestion pushed when no detector fired and at least one
element exists. -/
def generalFallback (msg : String) (e0 : Element) : Suggestion :=
  { type := "general"
    elementId := some e0.id
    property := "analysis"
    currentValue := .s "Current design"
    suggestedValue := .s "See AI recommendations"
    confidence := 0.7
    reasoning :=
      let kr := keyRecommendations msg
      if kr ≠ "" then kr else strTake msg 200 ++ "..." }

/-- `parseFoundryAgentResponse` on the natural-language branch.  A falsy
(empty) message makes the code fall back to the raw response object, whose
`.split` raises; the surrounding `catch (parseError)` then substitutes the
mock response — hence the first branch. -/
def parseFoundryAgentResponse (msg : String) (elements : List Element) : List Suggestion :=
  if msg = "" then generateMockAIResponse elements
  else
    let suggestions := detectorSuggestions msg elements
    if suggestions = [] then
      match elements with
      | e0 :: _ => [generalFallback msg e0]
      | [] => suggestions
    else suggestions

/-! ## Request bodies and the two HTTP handlers -/

/-- The shape of the `elements` (or `data.elements`) field of a request
body: absent, `null`, a string (truthy iff non-empty) or a real array.
These are the shapes the validation logic distinguishes. -/
inductive ElementsVal where
  | undef
  | nullv
  | str (s : String)
  | arr (es : List Element)
deriving DecidableEq, Repr

/-- JS truthiness of an `ElementsVal` (arrays, even empty ones, are truthy). -/
def truthyEV : ElementsVal → Bool
  | .undef => false
  | .nullv => false
  | .str s => s ≠ ""
  | .arr _ => true

/-- `a || b`. -/
def jsOrEV (a b : ElementsVal) : ElementsVal :=
  if truthyEV a then a else b

/-- `typeof` of an `ElementsVal`, used in the 400 diagnostic body. -/
def jsTypeofEV : ElementsVal → String
  | .undef => "undefined"
  | .nullv => "object"
  | .str _ => "string"
  | .arr _ => "object"

/-- `Array.isArray`. -/
def isArrayEV : ElementsVal → Bool
  | .arr _ => true
  | _ => false

/-- A request body: the direct `elements` field and the nested
`data.elements`. -/
structure ReqBody where
  elements : ElementsVal
  dataElements : ElementsVal
deriving DecidableEq, Repr

/-- `directElements || data?.elements` of server.js. -/
def serverEffectiveElements (body : ReqBody) : ElementsVal :=
  jsOrEV body.elements body.dataElements

/-- `directElements || data?.elements || []` of analyze-foundry. -/
def foundryEffectiveElements (body : ReqBody) : ElementsVal :=
  jsOrEV body.elements (jsOrEV body.dataElements (.arr []))

/-- The JSON response of the Express `/api/analyze` endpoint.  Absent
fields are `none`; server.js builds `{ suggestions }` on success, a
`{ error, received }` body on validation failure, and its `catch` block
references the out-of-scope `elements` binding, which raises a
`ReferenceError` that surfaces as a framework 500. -/
structure ServerResponse where
  status : Nat
  error : Option String := none
  receivedType : Option String := none
  success : Option Bool := none
  suggestions : Option (List Suggestion) := none
  message : Option String := none
  source : Option String := none
deriving DecidableEq, Repr

/-- The upstream outcome of the server.js provider logic: Azure OpenAI
unavailable (mock), failed (mock fallback), or a parsed suggestions array. -/
inductive AIOutcome where
  | unavailable
  | failed
  | parsed (suggs : List Suggestion)
deriving DecidableEq, Repr

/-- The suggestion list handed to the server.js pipeline for an outcome. -/
def serverUpstream (elements : List Element) : AIOutcome → List Suggestion
  | .parsed sg => sg
  | .unavailable => generateMockAIResponse elements
  | .failed => generateMockAIResponse elements

/-- The `/api/analyze` handler of server.js on a given provider outcome. -/
def serverAnalyze (body : ReqBody) (ai : AIOutcome) : ServerResponse :=
  match serverEffectiveElements body with
  | .arr es =>
    match enhancedSuggestionsServer es (serverUpstream es ai) with
    | .ok sgs => { status := 200, suggestions := some sgs }
    | .error _ => { status := 500 }
  | ev =>
    { status := 400
      error := some "Invalid request: elements array is required"
      receivedType := some (jsTypeofEV ev) }

/-- The JSON response of the analyze-foundry Azure Function. -/
structure FoundryResponse where
  status : Nat
  error : Option String := none
  receivedType : Option String := none
  success : Option Bool := none
  suggestions : Option (List Suggestion) := none
  message : Option String := none
  source : Option String := none
deriving DecidableEq, Repr

/-- The provider outcome reaching the analyze-foundry pipeline: no
configuration (mock), all provider tiers failed (mock), a structured
`{suggestions: [...]}` payload, or a free-text assistant message. -/
inductive FoundryOutcome where
  | noConfig
  | providerFailed
  | structured (suggs : List Suggestion)
  | freeText (msg : String)
deriving DecidableEq, Repr

/-- The suggestion list handed to the foundry pipeline for an outcome. -/
def foundryUpstream (elements : List Element) : FoundryOutcome → List Suggestion
  | .noConfig => generateMockAIResponse elements
  | .providerFailed => generateMockAIResponse elements
  | .structured sg => sg
  | .freeText msg => parseFoundryAgentResponse msg elements

/-- The catch-all response of analyze-foundry: any exception inside the
handler yields this envelope; its suggestions are the mock response for a
hard-coded empty element list. -/
def foundryCatchResponse : FoundryResponse :=
  { status := 200
    success := some true
    suggestions := some (generateMockAIResponse [])
    message := some "Using fallback analysis due to Azure AI Foundry error"
    source := some "Mock Fallback" }

/-- The analyze-foundry handler on a given provider outcome. -/
def foundryAnalyze (body : ReqBody) (outcome : FoundryOutcome) : FoundryResponse :=
  match foundryEffectiveElements body with
  | .arr es =>
    match enhancedSuggestionsFoundry es (foundryUpstream es outcome) with
    | .ok sgs =>
      { status := 200
        success := some true
        suggestions := some sgs
        source := some "Azure AI Foundry Agent" }
    | .error _ => foundryCatchResponse
  | ev =>
    { status := 400
      error := some "Invalid request: elements array is required"
      receivedType := some (jsTypeofEV ev) }

/-! ## Helper lemmas about characters and digit strings -/

/-- A hex digit is not JS whitespace. -/
theorem isHexDigit_not_ws (c : Char) (h : isHexDigit c = true) : isJsWhitespace c = false := by
  cases hws : isJsWhitespace c with
  | false => rfl
  | true =>
    exfalso
    simp only [isJsWhitespace, Bool.or_eq_true, beq_iff_eq] at hws
    rcases hws with ((((h1 | h1) | h1) | h1) | h1) | h1 <;> subst h1 <;>
      exact absurd h (by decide)

/-- A hex digit is not a sign character. -/
theorem isHexDigit_ne_sign (c : Char) (h : isHexDigit c = true) : c ≠ '-' ∧ c ≠ '+' := by
  constructor <;> intro h1 <;> subst h1 <;> exact absurd h (by decide)

/-- A hex digit is not `x` or `X`. -/
theorem isHexDigit_ne_x (c : Char) (h : isHexDigit c = true) : c ≠ 'x' ∧ c ≠ 'X' := by
  constructor <;> intro h1 <;> subst h1 <;> exact absurd h (by decide)

/-- Hex digit values are below 16 (0 is returned on non-hex input). -/
theorem hexDigitVal_lt_16 (c : Char) : hexDigitVal c < 16 := by
  unfold hexDigitVal
  split <;> rename_i h1
  · omega
  · split <;> rename_i h2
    · omega
    · split <;> rename_i h3
      · omega
      · omega

/-- A string of at most two hex digits has value at most 255. -/
theorem hexValNat_le_255 (cs : List Char) (hlen : cs.length ≤ 2)
    (hhex : ∀ c ∈ cs, isHexDigit c = true) : hexValNat cs ≤ 255 := by
  match cs, hlen with
  | [], _ => simp [hexValNat]
  | [a], _ =>
    have ha := hexDigitVal_lt_16 a
    simp only [hexValNat, List.foldl]
    omega
  | [a, b], _ =>
    have ha := hexDigitVal_lt_16 a
    have hb := hexDigitVal_lt_16 b
    simp only [hexValNat, List.foldl]
    omega

/-- `parseInt(s, 16)` on a non-empty all-hex-digit string is its hex value. -/
theorem jsParseIntHex_all_hex (cs : List Char) (h1 : cs ≠ [])
    (h2 : ∀ c ∈ cs, isHexDigit c = true) :
    jsParseIntHex cs = some ((hexValNat cs : Int)) := by
  match cs, h1 with
  | c :: t, _ =>
    have hc : isHexDigit c = true := h2 c (by simp)
    have hws : isJsWhitespace c = false := isHexDigit_not_ws c hc
    have hdrop : (c :: t).dropWhile isJsWhitespace = c :: t := by
      simp [List.dropWhile_cons, hws]
    have hsign := isHexDigit_ne_sign c hc
    have htake : (c :: t).takeWhile isHexDigit = c :: t :=
      List.takeWhile_eq_self_iff.mpr h2
    simp only [jsParseIntHex, hdrop]
    have hhead : (c :: t).head? = some c := rfl
    rw [hhead]
    have hne1 : ¬ (some c = some '-') := by
      simp only [Option.some_inj]; exact hsign.1
    have hne2 : ¬ (some c = some '-' ∨ some c = some '+') := by
      simp only [Option.some_inj]
      push_neg
      exact hsign
    rw [if_neg hne1, if_neg hne2]
    have hxpre : ¬ ((c :: t).take 2 = ['0', 'x'] ∨ (c :: t).take 2 = ['0', 'X']) := by
      rintro (hx | hx) <;>
      · cases t with
        | nil => simp at hx
        | cons b t2 =>
          simp only [List.take, List.cons.injEq] at hx
          obtain ⟨hc0, hb, -⟩ := hx
          have hbhex : isHexDigit b = true := h2 b (by simp)
          first
          | exact absurd hb ((isHexDigit_ne_x b hbhex).1)
          | exact absurd hb ((isHexDigit_ne_x b hbhex).2)
    rw [if_neg hxpre, htake]
    simp [one_mul, List.isEmpty_iff]


/-- A successful anchored rgb parse pins down the first four characters. -/
theorem rgbParseAt_shape (cs : List Char) (x : Nat × Nat × Nat × List Char)
    (h : rgbParseAt cs = some x) : ∃ t, cs = 'r' :: 'g' :: 'b' :: '(' :: t := by
  unfold rgbParseAt at h
  split at h
  · rename_i rest
    exact ⟨rest, rfl⟩
  · exact absurd h (by simp)

/-- A length-two slice of hex digits parses under `parseInt(-, 16)` to its
hex value, which is at most 255. -/
theorem hexSlice_parses (sl : List Char) (hne : sl ≠ []) (hlen : sl.length ≤ 2)
    (hhex : ∀ c ∈ sl, isHexDigit c = true) :
    divNaN (jsParseIntHex sl) 255 = some ((hexValNat sl : ℚ) / 255) ∧ hexValNat sl ≤ 255 := by
  refine ⟨?_, hexValNat_le_255 sl hlen hhex⟩
  rw [jsParseIntHex_all_hex sl hne hhex]
  simp [divNaN]

/-- Agreement on the hex grammar: a spec-valid `#RRGGBB` string parses to the
channel values divided by 255, and the channels are at most 255. -/
theorem spec_hex_agrees (s : String) (r g b : Nat)
    (h : specHexTriplet s = some (r, g, b)) :
    parseColorValueForFigma s =
      some ⟨some ((r : ℚ) / 255), some ((g : ℚ) / 255), some ((b : ℚ) / 255)⟩ ∧
    r ≤ 255 ∧ g ≤ 255 ∧ b ≤ 255 := by
  unfold specHexTriplet at h
  split at h
  case h_2 => exact absurd h (by simp)
  case h_1 rest heq =>
    by_cases hcond : rest.length = 6 ∧ rest.all isHexDigit
    case neg => rw [if_neg hcond] at h; exact absurd h (by simp)
    case pos =>
    rw [if_pos hcond] at h
    obtain ⟨hlen6, hallhex⟩ := hcond
    have hall : ∀ c ∈ rest, isHexDigit c = true := List.all_eq_true.mp hallhex
    injection h with h
    obtain ⟨hr, hg, hb⟩ : r = hexValNat (rest.take 2) ∧
        g = hexValNat ((rest.drop 2).take 2) ∧ b = hexValNat ((rest.drop 4).take 2) := by
      have h1 := congrArg Prod.fst h
      have h2 := congrArg (fun p => p.2.1) h
      have h3 := congrArg (fun p => p.2.2) h
      exact ⟨h1.symm, h2.symm, h3.symm⟩
    have hs1 : (rest.take 2).length ≤ 2 := by simp [List.length_take]
    have hs1ne : rest.take 2 ≠ [] := by
      have : (rest.take 2).length = 2 := by simp [List.length_take, hlen6]
      intro hnil; rw [hnil] at this; simp at this
    have hs2 : ((rest.drop 2).take 2).length ≤ 2 := by simp [List.length_take]
    have hs2ne : (rest.drop 2).take 2 ≠ [] := by
      have : ((rest.drop 2).take 2).length = 2 := by
        simp [List.length_take, List.length_drop, hlen6]
      intro hnil; rw [hnil] at this; simp at this
    have hs3 : ((rest.drop 4).take 2).length ≤ 2 := by simp [List.length_take]
    have hs3ne : (rest.drop 4).take 2 ≠ [] := by
      have : ((rest.drop 4).take 2).length = 2 := by
        simp [List.length_take, List.length_drop, hlen6]
      intro hnil; rw [hnil] at this; simp at this
    have hm1 : ∀ c ∈ rest.take 2, isHexDigit c = true :=
      fun c hc => hall c (List.mem_of_mem_take hc)
    have hm2 : ∀ c ∈ (rest.drop 2).take 2, isHexDigit c = true :=
      fun c hc => hall c (List.mem_of_mem_drop (List.mem_of_mem_take hc))
    have hm3 : ∀ c ∈ (rest.drop 4).take 2, isHexDigit c = true :=
      fun c hc => hall c (List.mem_of_mem_drop (List.mem_of_mem_take hc))
    obtain ⟨hp1, hb1⟩ := hexSlice_parses (rest.take 2) hs1ne hs1 hm1
    obtain ⟨hp2, hb2⟩ := hexSlice_parses ((rest.drop 2).take 2) hs2ne hs2 hm2
    obtain ⟨hp3, hb3⟩ := hexSlice_parses ((rest.drop 4).take 2) hs3ne hs3 hm3
    refine ⟨?_, by omega, by omega, by omega⟩
    unfold parseColorValueForFigma parseColorCore
    rw [heq]
    rw [if_neg (by simp)]
    rw [if_pos (by simp [hlen6])]
    unfold hexColorOf
    simp only [List.drop_one, List.tail_cons]
    rw [hp1, hp2, hp3, hr, hg, hb]


/-- Agreement on the rgb grammar: a spec-valid `rgb(R,G,B)` string parses to
the component values divided by 255. -/
theorem spec_rgb_agrees (s : String) (r g b : Nat)
    (h : specRgbForm s = some (r, g, b)) :
    parseColorValueForFigma s =
      some ⟨some ((r : ℚ) / 255), some ((g : ℚ) / 255), some ((b : ℚ) / 255)⟩ ∧
    r ≤ 255 ∧ g ≤ 255 ∧ b ≤ 255 := by
  unfold specRgbForm at h
  split at h
  case h_2 => exact absurd h (by simp)
  case h_1 r0 g0 b0 rest heq =>
    by_cases hcond : rest = [] ∧ r0 ≤ 255 ∧ g0 ≤ 255 ∧ b0 ≤ 255
    case neg => rw [if_neg hcond] at h; exact absurd h (by simp)
    case pos =>
    rw [if_pos hcond] at h
    injection h with h
    obtain ⟨hr, hg, hb⟩ : r = r0 ∧ g = g0 ∧ b = b0 := by
      have h1 := congrArg Prod.fst h
      have h2 := congrArg (fun p => p.2.1) h
      have h3 := congrArg (fun p => p.2.2) h
      exact ⟨h1.symm, h2.symm, h3.symm⟩
    subst hr hg hb
    obtain ⟨t, hshape⟩ := rgbParseAt_shape s.data _ heq
    refine ⟨?_, hcond.2.1, hcond.2.2.1, hcond.2.2.2⟩
    unfold parseColorValueForFigma parseColorCore
    rw [hshape] at heq ⊢
    rw [if_neg (by simp)]
    rw [if_neg (by simp)]
    have hfind : rgbFind ('r' :: 'g' :: 'b' :: '(' :: t) = some (r, g, b) := by
      unfold rgbFind
      rw [heq]
    rw [hfind]

/-- Combined agreement with the spec's color grammar, with channel bounds. -/
theorem spec_color_agrees (s : String) (r g b : Nat)
    (h : specParseColor s = some (r, g, b)) :
    parseColorValueForFigma s =
      some ⟨some ((r : ℚ) / 255), some ((g : ℚ) / 255), some ((b : ℚ) / 255)⟩ ∧
    r ≤ 255 ∧ g ≤ 255 ∧ b ≤ 255 := by
  unfold specParseColor at h
  split at h
  · rename_i t heq
    injection h with h
    subst h
    exact spec_hex_agrees s r g b heq
  · exact spec_rgb_agrees s r g b h

/-- Exact characterization of the `null` results of `parseColorValueForFigma`:
the string is empty, or it neither starts with `#` followed by exactly six
characters nor contains an `rgb(\d+,\s*\d+,\s*\d+)` substring. -/
theorem parseColor_none_iff (s : String) :
    parseColorValueForFigma s = none ↔
      ¬ (s.data ≠ [] ∧ ((s.data.head? = some '#' ∧ (s.data.drop 1).length = 6) ∨
         (rgbFind s.data).isSome)) := by
  unfold parseColorValueForFigma parseColorCore
  by_cases h0 : s.data = []
  · rw [if_pos h0]
    simp [h0]
  · rw [if_neg h0]
    by_cases h1 : s.data.head? = some '#' ∧ (s.data.drop 1).length = 6
    · rw [if_pos h1]
      constructor
      · intro hx
        exact absurd hx (by simp)
      · intro hx
        exact absurd ⟨h0, Or.inl h1⟩ hx
    · rw [if_neg h1]
      cases hfind : rgbFind s.data with
      | some t =>
        match t with
        | (r, g, b) =>
          constructor
          · intro hx
            exact absurd hx (by simp)
          · intro hx
            exact absurd ⟨h0, Or.inr rfl⟩ hx
      | none =>
        constructor
        · intro _ hx
          rcases hx.2 with hcase | hcase
          · exact h1 hcase
          · simp at hcase
        · intro _
          rfl


/-- The first-numeral extraction only produces non-negative values. -/
theorem firstNumeral_nonneg (cs : List Char) :
    firstNumeral cs = none ∨ ∃ q : ℚ, firstNumeral cs = some q ∧ 0 ≤ q := by
  induction cs with
  | nil => exact Or.inl rfl
  | cons c t ih =>
    by_cases hd : isDigitChar c = true
    · rw [firstNumeral, if_pos hd]
      refine Or.inr ⟨_, rfl, ?_⟩
      positivity
    · rw [firstNumeral, if_neg hd]
      exact ih

/-- Inversion for a successful color coercion of a suggestion value: only a
non-empty string can coerce to a triple, so such a value is truthy. -/
theorem parseColorSVal_ok_some (v : SVal) (c : Color)
    (h : parseColorSVal v = .ok (some c)) :
    ∃ str, v = .s str ∧ str ≠ "" ∧ parseColorValueForFigma str = some c ∧
      jsTruthySVal v = true := by
  match v with
  | .s str =>
    have hne : str ≠ "" := by
      intro hempty
      subst hempty
      have heval : parseColorSVal (SVal.s "") = .ok none := rfl
      rw [heval] at h
      exact absurd h (by simp)
    refine ⟨str, rfl, hne, ?_, ?_⟩
    · simpa [parseColorSVal] using h
    · simp [jsTruthySVal, hne]
  | .n q =>
    exfalso
    by_cases hq : q = 0
    · rw [parseColorSVal, if_pos hq] at h
      exact absurd h (by simp)
    · rw [parseColorSVal, if_neg hq] at h
      exact absurd h (by simp)
  | .col c2 => exact absurd h (by simp [parseColorSVal])
  | .nullv => exact absurd h (by simp [parseColorSVal])
  | .undef => exact absurd h (by simp [parseColorSVal])

/-- The analyze-foundry enhancement never drops a suggestion: every
non-throwing run yields `some` enhanced record. -/
theorem enhanceSuggestionFoundry_ne_none (elements : List Element) (idx : Nat)
    (sugg : Suggestion) : enhanceSuggestionFoundry elements idx sugg ≠ .ok none := by
  unfold enhanceSuggestionFoundry
  by_cases ht : sugg.type = "color"
  · rw [if_pos ht]
    cases hp : parseColorSVal sugg.suggestedValue with
    | ok cv => simp [Bind.bind, Except.bind, hp, Pure.pure, Except.pure]
    | error e => simp [Bind.bind, Except.bind, hp]
  · rw [if_neg ht]
    by_cases hs : sugg.type = "size"
    · rw [if_pos hs]
      simp [Pure.pure, Except.pure]
    · rw [if_neg hs]
      simp [Pure.pure, Except.pure]

deriving instance DecidableEq for Except

/-- C7 (amended): when resolution strategies 1–3 all fail, both resolvers
assign `elements[idx % N]` where `idx` is the suggestion's position in the
upstream suggestion list handed to the resolver (the map index) — not its
position in the final output sequence, which differs as soon as an earlier
suggestion is dropped by the server.js color filter; when the element list is
empty, the target remains absent. -/
theorem C7_round_robin_amended (sugg : Suggestion) (idx : Nat) (elements : List Element)
    (eid : String) (heid : sugg.elementId = some eid)
    (h1 : strategy1 sugg elements = none)
    (h2 : strategy2 eid elements = none)
    (h3 : strategy3 eid elements = none) :
    resolveElementServer sugg idx elements = .ok (elements[idx % elements.length]?) ∧
    resolveElementFoundry sugg idx elements = elements[idx % elements.length]? ∧
    (elements = [] → elements[idx % elements.length]? = none) ∧
    (0 < elements.length → (elements[idx % elements.length]?).isSome = true) := by
  have hrr : roundRobin idx elements = elements[idx % elements.length]? := by
    unfold roundRobin
    by_cases hlen : 0 < elements.length
    · rw [if_pos hlen]
    · rw [if_neg hlen]
      have : elements = [] := List.eq_nil_of_length_eq_zero (by omega)
      subst this
      simp
  refine ⟨?_, ?_, ?_, ?_⟩
  · unfold resolveElementServer
    rw [h1, heid]
    simp only [h2, h3, hrr]
  · unfold resolveElementFoundry
    rw [h1, heid]
    simp only [h2, hrr]
  · intro hnil
    subst hnil
    simp
  · intro hlen
    have hlt : idx % elements.length < elements.length := Nat.mod_lt idx hlen
    simp [List.getElem?_eq_getElem hlt]

/-- The server.js color filter: for a color suggestion whose suggested and
current values both coerce, the suggestion is dropped exactly when the summed
per-channel absolute difference is below 1/100; otherwise the enhanced record
is kept. -/
theorem server_color_filter (elements : List Element) (idx : Nat) (sugg : Suggestion)
    (cv cc : Color) (m : Option Element)
    (ht : sugg.type = "color")
    (hsv : parseColorSVal sugg.suggestedValue = .ok (some cv))
    (hcv : parseColorSVal sugg.currentValue = .ok (some cc))
    (hres : resolveElementServer sugg idx elements = .ok m) :
    (enhanceSuggestionServer elements idx sugg = .ok none ↔
      jsLt (colorDiffSum cc cv) (1 / 100) = true) := by
  obtain ⟨str, hveq, hne, hparse, htruthy⟩ := parseColorSVal_ok_some _ _ hcv
  unfold enhanceSuggestionServer
  simp only [Bind.bind]
  rw [hres]
  simp only [Except.bind]
  rw [if_pos ht, hsv]
  simp only [Except.bind]
  rw [if_pos htruthy, hcv]
  simp only [Except.bind]
  by_cases hlt : jsLt (colorDiffSum cc cv) (1 / 100) = true
  · rw [if_pos hlt]
    rw [one_div] at hlt
    simp [Pure.pure, Except.pure, hlt]
  · rw [if_neg hlt]
    rw [one_div] at hlt
    simp [Pure.pure, Except.pure, hlt]

/-! ## Handler-level lemmas -/

/-- A structurally invalid request is rejected by server.js with a 400
diagnostic, independently of the provider outcome. -/
theorem server_invalid_400 (body : ReqBody) (a1 a2 : AIOutcome)
    (h : isArrayEV (serverEffectiveElements body) = false) :
    serverAnalyze body a1 = serverAnalyze body a2 ∧
    (serverAnalyze body a1).status = 400 ∧
    (serverAnalyze body a1).error.isSome = true ∧
    (serverAnalyze body a1).receivedType =
      some (jsTypeofEV (serverEffectiveElements body)) := by
  unfold serverAnalyze
  cases hev : serverEffectiveElements body with
  | arr es => rw [hev] at h; simp [isArrayEV] at h
  | undef => exact ⟨rfl, rfl, rfl, rfl⟩
  | nullv => exact ⟨rfl, rfl, rfl, rfl⟩
  | str s => exact ⟨rfl, rfl, rfl, rfl⟩

/-- A truthy non-array `elements` value is rejected by analyze-foundry with a
400 diagnostic, independently of the provider outcome. -/
theorem foundry_invalid_400 (body : ReqBody) (f1 f2 : FoundryOutcome)
    (h : isArrayEV (foundryEffectiveElements body) = false) :
    foundryAnalyze body f1 = foundryAnalyze body f2 ∧
    (foundryAnalyze body f1).status = 400 ∧
    (foundryAnalyze body f1).error.isSome = true := by
  unfold foundryAnalyze
  cases hev : foundryEffectiveElements body with
  | arr es => rw [hev] at h; simp [isArrayEV] at h
  | undef => exact ⟨rfl, rfl, rfl⟩
  | nullv => exact ⟨rfl, rfl, rfl⟩
  | str s => exact ⟨rfl, rfl, rfl⟩

/-- A missing (or otherwise falsy) `elements` field is normalized to the
empty array by analyze-foundry, so it is not rejected. -/
theorem foundry_missing_defaults (body : ReqBody)
    (h1 : truthyEV body.elements = false) (h2 : truthyEV body.dataElements = false) :
    foundryEffectiveElements body = .arr [] := by
  unfold foundryEffectiveElements jsOrEV
  rw [h1, h2]
  simp

/-- Every analyze-foundry response to a structurally valid request has
status 200 and carries `success = true`, a suggestions array and a source
label, for every provider outcome including the internal-error catch. -/
theorem foundry_envelope_shape (body : ReqBody) (fo : FoundryOutcome) (es : List Element)
    (h : foundryEffectiveElements body = .arr es) :
    (foundryAnalyze body fo).status = 200 ∧
    (foundryAnalyze body fo).success = some true ∧
    ((foundryAnalyze body fo).suggestions).isSome = true ∧
    ((foundryAnalyze body fo).source).isSome = true := by
  have hred : foundryAnalyze body fo =
      (match enhancedSuggestionsFoundry es (foundryUpstream es fo) with
        | .ok sgs =>
          { status := 200
            success := some true
            suggestions := some sgs
            source := some "Azure AI Foundry Agent" }
        | .error _ => foundryCatchResponse) := by
    unfold foundryAnalyze
    rw [h]
  rw [hred]
  cases enhancedSuggestionsFoundry es (foundryUpstream es fo) with
  | ok sgs => exact ⟨rfl, rfl, rfl, rfl⟩
  | error e => exact ⟨rfl, rfl, rfl, rfl⟩

/-- The normal-path server.js response: status 200 and only a suggestions
field — no `success` flag and no source label. -/
theorem server_normal_envelope (body : ReqBody) (ai : AIOutcome) (es : List Element)
    (l : List Suggestion)
    (h : serverEffectiveElements body = .arr es)
    (henh : enhancedSuggestionsServer es (serverUpstream es ai) = .ok l) :
    serverAnalyze body ai = { status := 200, suggestions := some l } := by
  have hred : serverAnalyze body ai =
      (match enhancedSuggestionsServer es (serverUpstream es ai) with
        | .ok sgs => { status := 200, suggestions := some sgs }
        | .error _ => { status := 500 }) := by
    unfold serverAnalyze
    rw [h]
  rw [hred, henh]

/-- C9 (amended): for a non-empty free-text provider message on which no
line-level detector fired, and a NON-EMPTY element list, the parser emits
exactly one `general` suggestion targeting the first element, with reasoning
built by `generalFallback` from the bullet/numbered lines or the first 200
characters of the message; with an empty element list the parser returns an
empty suggestion set even for non-empty text. -/
theorem C9_general_fallback_amended (msg : String) (e0 : Element) (es : List Element)
    (hmsg : msg ≠ "")
    (hdet : detectorSuggestions msg (e0 :: es) = []) :
    parseFoundryAgentResponse msg (e0 :: es) = [generalFallback msg e0] ∧
    (generalFallback msg e0).type = "general" ∧
    (generalFallback msg e0).elementId = some e0.id := by
  refine ⟨?_, rfl, rfl⟩
  unfold parseFoundryAgentResponse
  rw [if_neg hmsg]
  simp [hdet]

/-! ## Concrete inputs used by the claim witnesses and counterexamples -/

/-- A well-formed rectangle element, as in the spec's end-to-end scenario. -/
def cardElement : Element :=
  ⟨"1:1", "RECTANGLE", "Card", 100, 50, some "#FFFFFF", none⟩

/-- A group element with zero extent: no mock branch fires for it. -/
def groupElement : Element :=
  ⟨"9:9", "GROUP", "g", 0, 0, none, none⟩

/-- First element of the round-robin demonstration pair. -/
def alphaElement : Element :=
  ⟨"1:1", "RECTANGLE", "Alpha", 10, 10, none, none⟩

/-- Second element of the round-robin demonstration pair. -/
def betaElement : Element :=
  ⟨"2:2", "FRAME", "Beta", 10, 10, none, none⟩

/-- A color suggestion whose suggested value equals its current value, which
the server.js filter drops. -/
def dropColorSuggestion : Suggestion :=
  ⟨"color", some "1:1", "fill", .s "#4A90E2", .s "#4A90E2", 0.8, "palette"⟩

/-- A suggestion whose target reference matches nothing. -/
def strayGeneralSuggestion : Suggestion :=
  ⟨"general", some "zzz", "layout", .s "current", .s "suggested", 0.5, "stray"⟩

/-- A color suggestion with identical current and suggested colors (summed
channel difference 0 < 0.01). -/
def identicalColorSuggestion : Suggestion :=
  ⟨"color", some "1:1", "fill", .s "#FFFFFF", .s "#FFFFFF", 0.9, "same"⟩

/-- The coerced white triple. -/
def whiteColor : Color := ⟨some 1, some 1, some 1⟩

/-! ## C1 -/

/-- C1: refuted by evaluation — the invariant that no dangling element
reference escapes the pipeline fails on the analyze-foundry endpoint.  On the
valid non-empty element list `[cardElement]`, a free-text provider message
containing a color line makes `parseFoundryAgentResponse` emit a color
suggestion whose `suggestedValue` is an `{r,g,b}` object; re-parsing that
object in the enhancement map raises a `TypeError`, the handler's catch-all
substitutes the mock envelope for an empty selection, and the returned
suggestion carries `elementId = "no-selection"`, which is not an id of the
input list. -/
theorem C1_foundry_dangling_reference :
    (parseFoundryAgentResponse "Change the background color to #FF0000"
        [cardElement]).map Suggestion.type = ["color"] ∧
    enhancedSuggestionsFoundry [cardElement]
      (parseFoundryAgentResponse "Change the background color to #FF0000"
        [cardElement]) = .error () ∧
    foundryAnalyze ⟨.arr [cardElement], .undef⟩
      (.freeText "Change the background color to #FF0000") = foundryCatchResponse ∧
    foundryCatchResponse.suggestions = some [mockNoSelection] ∧
    mockNoSelection.elementId = some "no-selection" ∧
    ¬ ("no-selection" ∈ [cardElement].map Element.id) := by
  refine ⟨by decide, by decide, by decide, by decide, rfl, by decide⟩


/-! ## C2 -/

/-- C2: counterexample — on a structurally valid request in the mock-only
outcome, the server.js response is a 200 body holding only a suggestions
array: the `success` boolean and the source label asserted by the claim are
absent. -/
theorem C2_server_envelope_missing_fields :
    (serverAnalyze ⟨.arr [cardElement], .undef⟩ .unavailable).status = 200 ∧
    ((serverAnalyze ⟨.arr [cardElement], .undef⟩ .unavailable).suggestions).isSome = true ∧
    (serverAnalyze ⟨.arr [cardElement], .undef⟩ .unavailable).success = none ∧
    (serverAnalyze ⟨.arr [cardElement], .undef⟩ .unavailable).source = none := by
  refine ⟨by decide, by decide, by decide, by decide⟩

/-- C2 (amended): the full envelope guarantee holds for the analyze-foundry
handler — every response to a request whose effective elements value is an
array has status 200 with `success = true`, a suggestions array and a source
label, in every outcome including the internal-error catch; the server.js
handler guarantees only a 200 body with a suggestions array on its normal
path, with no `success` or source fields. -/
theorem C2_envelope_shape_amended :
    (∀ (body : ReqBody) (fo : FoundryOutcome) (es : List Element),
      foundryEffectiveElements body = .arr es →
      (foundryAnalyze body fo).status = 200 ∧
      (foundryAnalyze body fo).success = some true ∧
      ((foundryAnalyze body fo).suggestions).isSome = true ∧
      ((foundryAnalyze body fo).source).isSome = true) ∧
    (∀ (body : ReqBody) (ai : AIOutcome) (es : List Element) (l : List Suggestion),
      serverEffectiveElements body = .arr es →
      enhancedSuggestionsServer es (serverUpstream es ai) = .ok l →
      serverAnalyze body ai = { status := 200, suggestions := some l }) :=
  ⟨foundry_envelope_shape, server_normal_envelope⟩

/-- C2 witness: the amended envelope guarantee at a concrete request. -/
theorem C2_envelope_shape_witness :
    (foundryAnalyze ⟨.arr [], .undef⟩ .noConfig).status = 200 ∧
    (foundryAnalyze ⟨.arr [], .undef⟩ .noConfig).success = some true ∧
    serverAnalyze ⟨.arr [], .undef⟩ .unavailable =
      { status := 200, suggestions := some [{ mockNoSelection with elementId := none }] } := by
  have h1 := C2_envelope_shape_amended.1 ⟨.arr [], .undef⟩ .noConfig [] rfl
  have h2 := C2_envelope_shape_amended.2 ⟨.arr [], .undef⟩ .unavailable []
    [{ mockNoSelection with elementId := none }] rfl (by decide)
  exact ⟨h1.1, h1.2.1, h2⟩

/-! ## C3 -/

/-- C3: refuted by evaluation — with no provider configuration, a non-empty
element list consisting of a zero-extent GROUP element makes the mock
generator (despite its own comment "Always provide at least one suggestion")
produce zero suggestions, and the foundry envelope is `success = true` with
an empty suggestions array.  The empty-list half of the claim does hold:
an empty element list yields exactly one informational general suggestion. -/
theorem C3_mock_zero_suggestions :
    generateMockAIResponse [groupElement] = [] ∧
    [groupElement] ≠ [] ∧
    foundryAnalyze ⟨.arr [groupElement], .undef⟩ .noConfig =
      { status := 200, success := some true, suggestions := some [],
        source := some "Azure AI Foundry Agent" } ∧
    (foundryAnalyze ⟨.arr [], .undef⟩ .noConfig).suggestions =
      some [{ mockNoSelection with elementId := none }] ∧
    mockNoSelection.type = "general" := by
  refine ⟨by decide, by decide, by decide, by decide, rfl⟩

/-! ## C4 -/

/-- C4: counterexample — `"#1Z3456"` is in neither of the spec's grammars
(`Z` is not a hex digit), yet `parseColorValueForFigma` returns a non-null
triple: `parseInt(·, 16)` reads the digit prefixes of the two-character
slices. -/
theorem C4_color_grammar_counterexample :
    specParseColor "#1Z3456" = none ∧
    parseColorValueForFigma "#1Z3456" =
      some ⟨some (1 / 255), some (52 / 255), some (86 / 255)⟩ := by
  refine ⟨by decide, by decide⟩

/-- C4 (amended): on the spec's two grammars the function returns exactly the
channel-over-255 triple, and it is total by construction (no exception); but
non-null results are not limited to the grammars — the exact characterization
of null results is: empty string, or neither `#` followed by exactly six
characters nor an `rgb(\d+,\s*\d+,\s*\d+)` substring anywhere in the
string. -/
theorem C4_coerceColor_amended :
    (∀ (s : String) (r g b : Nat), specParseColor s = some (r, g, b) →
      parseColorValueForFigma s =
        some ⟨some ((r : ℚ) / 255), some ((g : ℚ) / 255), some ((b : ℚ) / 255)⟩) ∧
    (∀ s : String, parseColorValueForFigma s = none ↔
      ¬ (s.data ≠ [] ∧ ((s.data.head? = some '#' ∧ (s.data.drop 1).length = 6) ∨
         (rgbFind s.data).isSome))) :=
  ⟨fun s r g b h => (spec_color_agrees s r g b h).1, parseColor_none_iff⟩

/-- C4 witness: the amended statement evaluated on the spec's own examples. -/
theorem C4_coerceColor_witness :
    parseColorValueForFigma "#4A90E2" =
      some ⟨some ((74 : ℚ) / 255), some ((144 : ℚ) / 255), some ((226 : ℚ) / 255)⟩ ∧
    parseColorValueForFigma "not-a-color" = none := by
  constructor
  · exact C4_coerceColor_amended.1 "#4A90E2" 74 144 226 (by decide)
  · exact (C4_coerceColor_amended.2 "not-a-color").mpr (by decide)

/-! ## C5 -/

/-- C5: counterexample — `"rgb(300,0,0)"` coerces to a non-null triple whose
red component is `300/255 > 1`: the implementation divides unbounded parsed
integers by 255, so components are not confined to `[0,1]`. -/
theorem C5_component_exceeds_one :
    parseColorValueForFigma "rgb(300,0,0)" =
      some ⟨some ((300 : ℚ) / 255), some 0, some 0⟩ ∧
    ¬ ((300 : ℚ) / 255 ≤ 1) := by
  refine ⟨by decide, by decide⟩

/-- C5 (amended): components of the coerced triple are guaranteed to lie in
`[0,1]` for inputs in the spec's color grammar (valid hex pairs and rgb
components at most 255); outside the grammar the rgb branch divides
unbounded integers by 255 and the hex branch can produce NaN or negative
components. -/
theorem C5_components_bounded_amended :
    ∀ (s : String) (r g b : Nat), specParseColor s = some (r, g, b) →
      ∃ qr qg qb, parseColorValueForFigma s = some ⟨some qr, some qg, some qb⟩ ∧
        0 ≤ qr ∧ qr ≤ 1 ∧ 0 ≤ qg ∧ qg ≤ 1 ∧ 0 ≤ qb ∧ qb ≤ 1 := by
  intro s r g b h
  obtain ⟨hp, hr, hg, hb⟩ := spec_color_agrees s r g b h
  refine ⟨_, _, _, hp, ?_, ?_, ?_, ?_, ?_, ?_⟩
  · positivity
  · rw [div_le_one (by norm_num)]
    exact_mod_cast hr
  · positivity
  · rw [div_le_one (by norm_num)]
    exact_mod_cast hg
  · positivity
  · rw [div_le_one (by norm_num)]
    exact_mod_cast hb

/-- C5 witness: the amended bound at a concrete grammar input. -/
theorem C5_components_bounded_witness :
    ∃ qr qg qb, parseColorValueForFigma "rgb(255,0,0)" =
      some ⟨some qr, some qg, some qb⟩ ∧
      0 ≤ qr ∧ qr ≤ 1 ∧ 0 ≤ qg ∧ qg ≤ 1 ∧ 0 ≤ qb ∧ qb ≤ 1 :=
  C5_components_bounded_amended "rgb(255,0,0)" 255 0 0 (by decide)


/-! ## C6 -/

/-- C6: counterexample — a request body with no `elements` field at all is
not rejected by analyze-foundry: the `|| []` default routes it through the
mock tier and the handler answers 200 with the mock's informational
suggestion, where the claim demands a 400 with no tier invoked. -/
theorem C6_foundry_missing_elements_200 :
    (foundryAnalyze ⟨.undef, .undef⟩ .noConfig).status = 200 ∧
    (foundryAnalyze ⟨.undef, .undef⟩ .noConfig).suggestions =
      some [{ mockNoSelection with elementId := none }] := by
  refine ⟨by decide, by decide⟩

/-- C6 (amended): server.js returns 400 with a diagnostic of the received
shape for every missing or non-array elements value, without consulting the
provider outcome; analyze-foundry rejects only a truthy non-array value the
same way, while a missing or falsy elements field is normalized to the empty
array and processed normally. -/
theorem C6_validation_amended :
    (∀ (body : ReqBody) (a1 a2 : AIOutcome),
      isArrayEV (serverEffectiveElements body) = false →
      serverAnalyze body a1 = serverAnalyze body a2 ∧
      (serverAnalyze body a1).status = 400 ∧
      (serverAnalyze body a1).error.isSome = true ∧
      (serverAnalyze body a1).receivedType =
        some (jsTypeofEV (serverEffectiveElements body))) ∧
    (∀ (body : ReqBody) (f1 f2 : FoundryOutcome),
      isArrayEV (foundryEffectiveElements body) = false →
      foundryAnalyze body f1 = foundryAnalyze body f2 ∧
      (foundryAnalyze body f1).status = 400 ∧
      (foundryAnalyze body f1).error.isSome = true) ∧
    (∀ body : ReqBody, truthyEV body.elements = false →
      truthyEV body.dataElements = false →
      foundryEffectiveElements body = .arr []) :=
  ⟨server_invalid_400, foundry_invalid_400, foundry_missing_defaults⟩

/-- C6 witness: the amended validation behavior at concrete bodies. -/
theorem C6_validation_witness :
    (serverAnalyze ⟨.str "not-an-array", .undef⟩ .unavailable).status = 400 ∧
    serverAnalyze ⟨.str "not-an-array", .undef⟩ .unavailable =
      serverAnalyze ⟨.str "not-an-array", .undef⟩ .failed ∧
    (foundryAnalyze ⟨.str "not-an-array", .undef⟩ .noConfig).status = 400 ∧
    foundryEffectiveElements ⟨.nullv, .undef⟩ = .arr [] := by
  have h1 := C6_validation_amended.1 ⟨.str "not-an-array", .undef⟩ .unavailable .failed
    (by decide)
  have h2 := C6_validation_amended.2.1 ⟨.str "not-an-array", .undef⟩ .noConfig .providerFailed
    (by decide)
  have h3 := C6_validation_amended.2.2 ⟨.nullv, .undef⟩ (by decide) (by decide)
  exact ⟨h1.2.1, h1.1, h2.2.1, h3⟩

/-! ## C7 -/

/-- C7: counterexample — the round-robin index is the position in the
upstream list, not the output sequence.  With two elements and two upstream
suggestions, the first (a no-op color suggestion) is dropped by the filter,
so the survivor sits at output position 0; the claim then demands
`elements[0]` (`"1:1"`), but the code assigned `elements[1 % 2]`
(`"2:2"`). -/
theorem C7_output_index_counterexample :
    (enhancedSuggestionsServer [alphaElement, betaElement]
        [dropColorSuggestion, strayGeneralSuggestion]).map
      (fun l => l.map Suggestion.elementId) = .ok [some "2:2"] ∧
    [alphaElement, betaElement].map Element.id = ["1:1", "2:2"] ∧
    ("2:2" : String) ≠ "1:1" := by
  refine ⟨by decide, by decide, by decide⟩

/-- C7 witness: the amended round-robin equation at a concrete unmatched
suggestion, index 5 and two elements (5 mod 2 = 1). -/
theorem C7_round_robin_witness :
    resolveElementServer strayGeneralSuggestion 5 [alphaElement, betaElement] =
      .ok (some betaElement) ∧
    resolveElementFoundry strayGeneralSuggestion 5 [alphaElement, betaElement] =
      some betaElement := by
  have h := C7_round_robin_amended strayGeneralSuggestion 5 [alphaElement, betaElement]
    "zzz" (by decide) (by decide) (by decide) (by decide)
  exact ⟨h.1.trans (by decide), h.2.1.trans (by decide)⟩

/-! ## C8 -/

/-- C8: counterexample — the near-identical-color drop exists only in
server.js.  In the analyze-foundry pipeline a color suggestion whose current
and suggested values coerce to the same triple (summed difference 0 < 0.01)
is NOT dropped: it appears in the final envelope with the coerced value. -/
theorem C8_foundry_no_drop_counterexample :
    parseColorValueForFigma "#FFFFFF" = some whiteColor ∧
    jsLt (colorDiffSum whiteColor whiteColor) (1 / 100) = true ∧
    (foundryAnalyze ⟨.arr [cardElement], .undef⟩
        (.structured [identicalColorSuggestion])).suggestions =
      some [{ identicalColorSuggestion with suggestedValue := .col whiteColor }] := by
  refine ⟨by decide, by decide, by decide⟩

/-- C8 (amended): in the server.js pipeline a color suggestion whose
suggested and current values both coerce to triples is dropped exactly when
the summed per-channel absolute difference is below 0.01 (and kept with the
coerced value otherwise); the analyze-foundry pipeline never drops any
suggestion. -/
theorem C8_color_filter_amended :
    (∀ (elements : List Element) (idx : Nat) (sugg : Suggestion) (cv cc : Color)
      (m : Option Element), sugg.type = "color" →
      parseColorSVal sugg.suggestedValue = .ok (some cv) →
      parseColorSVal sugg.currentValue = .ok (some cc) →
      resolveElementServer sugg idx elements = .ok m →
      (enhanceSuggestionServer elements idx sugg = .ok none ↔
        jsLt (colorDiffSum cc cv) (1 / 100) = true)) ∧
    (∀ (elements : List Element) (idx : Nat) (sugg : Suggestion),
      enhanceSuggestionFoundry elements idx sugg ≠ .ok none) :=
  ⟨server_color_filter, enhanceSuggestionFoundry_ne_none⟩

/-- C8 witness: the identical-color suggestion is dropped by the server.js
enhancement at a concrete input. -/
theorem C8_color_filter_witness :
    enhanceSuggestionServer [cardElement] 0 identicalColorSuggestion = .ok none := by
  have h := C8_color_filter_amended.1 [cardElement] 0 identicalColorSuggestion
    whiteColor whiteColor (some cardElement) rfl (by decide) (by decide) (by decide)
  exact h.mpr (by decide)

/-! ## C9 -/

/-- C9: counterexample — with an empty element list the general fallback is
guarded by `elements.length > 0`, so the parser returns an empty suggestion
set for the non-empty message `"hello there"`, contradicting "never yields an
empty suggestion set for non-empty upstream text". -/
theorem C9_empty_elements_counterexample :
    parseFoundryAgentResponse "hello there" [] = [] ∧
    ("hello there" : String) ≠ "" := by
  refine ⟨by decide, by decide⟩

/-- C9 witness: the amended fallback at a concrete message and element. -/
theorem C9_general_fallback_witness :
    parseFoundryAgentResponse "hello" [cardElement] =
      [generalFallback "hello" cardElement] ∧
    (generalFallback "hello" cardElement).elementId = some "1:1" := by
  have h := C9_general_fallback_amended "hello" cardElement [] (by decide) (by decide)
  exact ⟨h.1, h.2.2.trans (by decide)⟩

/-! ## C10 -/

/-- C10: for every string input `coerceNumber` returns null or a
non-negative value — the extraction pattern `(\d+(?:\.\d+)?)` captures only
an unsigned numeral, so `"-10px"` coerces to `10`, not `-10`; only values
already of numeric type pass through unchanged (and can therefore be
negative). -/
theorem C10_coerceNumber_nonneg :
    (∀ s : String, parseNumericValueFromAI (.s s) = none ∨
      ∃ q : ℚ, parseNumericValueFromAI (.s s) = some q ∧ 0 ≤ q) ∧
    parseNumericValueFromAI (.s "-10px") = some 10 ∧
    (∀ q : ℚ, parseNumericValueFromAI (.n q) = some q) := by
  refine ⟨?_, by decide, fun q => rfl⟩
  intro s
  exact firstNumeral_nonneg s.data

end DRP
